import Mathlib

/-!
Verification of the message-passing orchestration core of the
AI-Story-Agents repository, as a shallow embedding of the Python source
into Lean.

Files embedded:
  * src/distributed/message_broker.py  (Message, MessageBroker)
  * src/distributed/agent_service.py   (AgentService dispatch and worker loop)
  * src/distributed/distributed_orchestrator.py (DistributedOrchestrator)
  * src/orchestrator/coordinator.py    (StoryOrchestrator, in-process variant)
  * src/agents/base_agent.py, src/agents/author_agent.py (Message,
    AuthorAgent.process_message and scene-description enhancement)

Modelling conventions:
  * Python dict payloads become association lists `List (String x PyVal)`
    over an inductive `PyVal` of Python values (insertion order preserved,
    as CPython dicts do).
  * Raising an exception becomes `Except String`, the `String` being the
    exception description `str(e)`; a `try/except` block becomes a `match`
    on the `Except` value.
  * External nondeterminism (uuid generation, LLM text generation, the
    sequence of messages a blocking `receive` yields, disk-write success)
    is passed in as explicit parameters or oracle functions.
  * Wall-clock time is not modelled: the distributed orchestrator's poll
    loop consumes a list of `receive` outcomes (`none` = a one-second
    receive timeout) and exhausting the list stands for the while-loop's
    time budget running out.
-/

/-- Python values as they occur in the payload dictionaries of this
repository: `None`, strings, non-negative integers, lists and dicts.
(Dicts keep insertion order, as CPython dicts do.) -/
inductive PyVal where
  | vNone : PyVal
  | vStr (s : String) : PyVal
  | vNat (n : Nat) : PyVal
  | vList (xs : List PyVal) : PyVal
  | vDict (fields : List (String × PyVal)) : PyVal
deriving Inhabited

/-- A Python dict with string keys, in insertion order. -/
abbrev Dict := List (String × PyVal)

/-- First value bound to key `k`, if any (CPython dicts have unique keys;
this model keeps the first binding, matching a well-formed dict). -/
def dictGet : Dict → String → Option PyVal
  | [], _ => none
  | (k', v) :: rest, k => if k' = k then some v else dictGet rest k

/-- Python `d.get(k, default)`: the stored value when the key is present
(even when that value is `None`), the default otherwise. -/
def dictGetD (d : Dict) (k : String) (dflt : PyVal) : PyVal :=
  (dictGet d k).getD dflt

/-- Python `d[k] = v`: replace the value in place when the key is present
(keeping its position, as CPython does), append a new binding otherwise. -/
def dictSet : Dict → String → PyVal → Dict
  | [], k, v => [(k, v)]
  | (k', v') :: rest, k, v =>
      if k' = k then (k, v) :: rest else (k', v') :: dictSet rest k v

/-- Python `{**base, **upd}`-style update: fold `dictSet` over `upd`.
Used for the dict literal `{'action': 'create_story', **story_idea}`. -/
def dictMerge (base : Dict) (upd : Dict) : Dict :=
  upd.foldl (fun d kv => dictSet d kv.1 kv.2) base

/-- Python `d[k]` subscript: the value, or a `KeyError` exception. -/
def pySubscript (d : Dict) (k : String) : Except String PyVal :=
  match dictGet d k with
  | some v => .ok v
  | none => .error ("KeyError: " ++ k)

/-- Python truthiness of a value (`if not action:` style tests). -/
def pyTruthy : PyVal → Bool
  | .vNone => false
  | .vStr s => !(s == "")
  | .vNat n => !(n == 0)
  | .vList xs => !xs.isEmpty
  | .vDict fs => !fs.isEmpty

/-- Test `v == "lit"` for a string literal, as Python `==` between a
payload value and a string constant (false on any non-string value). -/
def isStr (v : PyVal) (s : String) : Bool :=
  match v with
  | .vStr t => t == s
  | _ => false

/-- Python `len(v)` for the sized values, `TypeError` otherwise. -/
def pyLen : PyVal → Except String Nat
  | .vStr s => .ok s.length
  | .vList xs => .ok xs.length
  | .vDict fs => .ok fs.length
  | _ => .error "TypeError: object has no len"

/-- Iterating a value that must be a list (`for x in v`); the source only
ever iterates lists here, any other value is a `TypeError` in this model. -/
def pyAsList : PyVal → Except String (List PyVal)
  | .vList xs => .ok xs
  | _ => .error "TypeError: not iterable"

/-- Using a value as a dict (`v.get(...)`, `v.items()`); any other value
is an `AttributeError`. -/
def pyAsDict : PyVal → Except String Dict
  | .vDict fs => .ok fs
  | _ => .error "AttributeError: not a dict"

/-- Python string slice `v[:n]`; the source slices only strings here
(the title fields), any other value is outside the typed model. -/
def pySliceStr (v : PyVal) (n : Nat) : Except String String :=
  match v with
  | .vStr s => .ok (s.take n)
  | _ => .error "TypeError: not sliceable"

mutual
/-- Python `==` between payload values (deep structural equality).
The source applies it only to scene ids (strings or `None`); on dicts
this model compares fields in insertion order, which agrees with CPython
on every comparison the source actually performs. -/
def PyVal.beq : PyVal → PyVal → Bool
  | .vNone, .vNone => true
  | .vStr a, .vStr b => a == b
  | .vNat a, .vNat b => a == b
  | .vList xs, .vList ys => PyVal.beqList xs ys
  | .vDict xs, .vDict ys => PyVal.beqFields xs ys
  | _, _ => false

/-- Elementwise `PyVal.beq` on lists. -/
def PyVal.beqList : List PyVal → List PyVal → Bool
  | [], [] => true
  | x :: xs, y :: ys => PyVal.beq x y && PyVal.beqList xs ys
  | _, _ => false

/-- Elementwise `PyVal.beq` on dict fields. -/
def PyVal.beqFields : List (String × PyVal) → List (String × PyVal) → Bool
  | [], [] => true
  | (k, v) :: xs, (l, w) :: ys => k == l && PyVal.beq v w && PyVal.beqFields xs ys
  | _, _ => false
end

/-! ### Message (src/distributed/message_broker.py, class Message) -/

/-- The broker-level message envelope (message_broker.py lines 18-60).
The `timestamp` field is wall-clock time and is not modelled; every
other field of the Python class is carried.  Field types follow the
source's type hints (`str` fields, dict content). -/
structure BMessage where
  message_id : String
  sender : String
  receiver : String
  message_type : String
  content : Dict
  correlation_id : String

/-- Python `a or b` on an optional string: the left operand when it is
truthy (present and non-empty), the right operand otherwise.  This is the
`correlation_id or message_id` default in `Message.__init__`. -/
def pyOrStr : Option String → String → String
  | some s, d => if s = "" then d else s
  | none, d => d

/-- `Message.__init__` (message_broker.py lines 21-36): stores the given
fields and sets `correlation_id = correlation_id or message_id`. -/
def BMessage.init (message_id sender receiver message_type : String)
    (content : Dict) (correlation_id : Option String) : BMessage :=
  { message_id := message_id
    sender := sender
    receiver := receiver
    message_type := message_type
    content := content
    correlation_id := pyOrStr correlation_id message_id }

/-- Read a required `str`-typed field out of a serialized message dict
(`data['k']`): `KeyError` when absent; the source's type hints declare
these fields `str`, so a non-string value is outside the typed model. -/
def pyStrField (data : Dict) (k : String) : Except String String := do
  match ← pySubscript data k with
  | .vStr s => pure s
  | _ => .error ("TypeError: field " ++ k ++ " is not a str")

/-- `Message.from_dict` (message_broker.py lines 49-60): rebuilds a
message through `__init__`, passing `data.get('correlation_id')` — so an
absent key or a stored `None` arrives as `None` and an empty string
arrives as `''`, both falsy.  (`timestamp` handling is not modelled.) -/
def BMessage.fromDict (data : Dict) : Except String BMessage := do
  let mid ← pyStrField data "message_id"
  let snd ← pyStrField data "sender"
  let rcv ← pyStrField data "receiver"
  let mty ← pyStrField data "message_type"
  let cnt ← (do match ← pySubscript data "content" with
                | .vDict d => pure d
                | _ => .error "TypeError: content is not a dict")
  let cid : Option String :=
    match dictGet data "correlation_id" with
    | some (.vStr s) => some s
    | _ => none
  pure (BMessage.init mid snd rcv mty cnt cid)

/-! ### MessageBroker (src/distributed/message_broker.py, lines 63-164)

State: the per-receiver queues (an insertion-ordered map, like the
Python dict `self.queues`; each queue front is the list head) and the
append-only `message_history`.  The subscriber callbacks only spawn
fire-and-forget daemon threads and never touch this state, so they are
not part of the modelled state. -/

structure BrokerState where
  queues : List (String × List BMessage)
  history : List BMessage

/-- Lookup in an insertion-ordered association map. -/
def alookup {α : Type} : List (String × α) → String → Option α
  | [], _ => none
  | (k', v) :: rest, k => if k' = k then some v else alookup rest k

/-- `MessageBroker.create_queue` (lines 80-84): add an empty queue for
`queue_name` only when none exists yet. -/
def create_queue (s : BrokerState) (queue_name : String) : BrokerState :=
  if (alookup s.queues queue_name).isSome then s
  else { s with queues := s.queues ++ [(queue_name, [])] }

/-- Append a message at the tail of the named queue (the `queue.Queue.put`
in `publish`; the queue is guaranteed to exist at the call site). -/
def enqueue : List (String × List BMessage) → String → BMessage →
    List (String × List BMessage)
  | [], name, m => [(name, [m])]
  | (k, q) :: rest, name, m =>
      if k = name then (k, q ++ [m]) :: rest else (k, q) :: enqueue rest name m

/-- `MessageBroker._save_message` (lines 147-154): the disk write is
wrapped in `try/except Exception`, so whatever the write does — modelled
by the `diskWrite` oracle — the method returns normally. -/
def save_message (diskWrite : BMessage → Except String Unit)
    (m : BMessage) : Unit :=
  match diskWrite m with
  | .ok _ => ()
  | .error _ => ()

/-- `MessageBroker.publish` (lines 86-116): ensure the receiver's queue
exists, enqueue the message, append it to `message_history`, then attempt
the best-effort disk write (`_save_message`).  Subscriber notification
spawns daemon threads and does not change broker state. -/
def publish (diskWrite : BMessage → Except String Unit)
    (s : BrokerState) (m : BMessage) : BrokerState :=
  let s1 := create_queue s m.receiver
  let s2 : BrokerState := { s1 with queues := enqueue s1.queues m.receiver m }
  let s3 : BrokerState := { s2 with history := s2.history ++ [m] }
  let _ := save_message diskWrite m
  s3

/-- Publish a whole sequence of messages in order. -/
def publishAll (diskWrite : BMessage → Except String Unit)
    (s : BrokerState) (ms : List BMessage) : BrokerState :=
  ms.foldl (publish diskWrite) s

/-- `MessageBroker.get_messages_by_correlation` (lines 140-145): the
history entries whose `correlation_id` matches, in history order. -/
def get_messages_by_correlation (s : BrokerState)
    (correlation_id : String) : List BMessage :=
  s.history.filter (fun m => m.correlation_id == correlation_id)

/-! ### AgentService (src/distributed/agent_service.py)

The wrapped agent's `execute_task` is the external unit of work: it is
modelled as a function from the message content dict to
`Except String PyVal` — `.error e` standing for a raised exception whose
`str(e)` is `e`, `.ok r` for a returned result value. -/

/-- The error-response dict built in the `except` block of
`AgentService._handle_message` (lines 203-210). -/
def errorResponseDict (m : BMessage) (e : String) : Dict :=
  [("receiver", .vStr m.sender),
   ("action", .vStr "error"),
   ("error", .vStr e),
   ("correlation_id", .vStr m.correlation_id)]

/-- `AgentService._handle_message` (lines 159-210): extract `action` from
the content; a falsy action is logged and dropped (`None`); a known
action runs `execute_task` and builds the routed response dict of its
branch; an unknown action is logged and dropped; an exception raised by
`execute_task` is caught and turned into the error-response dict.  The
branch conditions compare `action` against string literals, so any
non-string action fails every comparison and falls through to `None`. -/
def handle_message (exec : Dict → Except String PyVal)
    (m : BMessage) : Option Dict :=
  let content := m.content
  let action := dictGetD content "action" .vNone
  if !pyTruthy action then none
  else
    let tryBody : Except String (Option Dict) :=
      if isStr action "create_story" then
        (exec content).map (fun result => some
          [("receiver", .vStr "IllustratorService"),
           ("action", .vStr "generate_illustrations"),
           ("story_data", result),
           ("correlation_id", .vStr m.correlation_id)])
      else if isStr action "generate_illustrations" then
        (exec content).map (fun result => some
          [("receiver", .vStr "PublisherService"),
           ("action", .vStr "create_publication"),
           ("story_data", dictGetD content "story_data" .vNone),
           ("illustrations", result),
           ("correlation_id", .vStr m.correlation_id)])
      else if isStr action "create_publication" then
        (exec content).map (fun result => some
          [("receiver", .vStr "Orchestrator"),
           ("action", .vStr "complete"),
           ("result", result),
           ("correlation_id", .vStr m.correlation_id)])
      else
        .ok none
    match tryBody with
    | .ok r => r
    | .error e => some (errorResponseDict m e)

/-- The string the response dict's `receiver` entry carries; the
`_handle_message` responses always store a string there, and
`response.get('receiver', message.sender)` falls back to the original
sender when the key is absent. -/
def responseReceiver (response : Dict) (m : BMessage) : String :=
  match dictGet response "receiver" with
  | some (.vStr s) => s
  | _ => m.sender

/-- One iteration of `AgentService._process_messages` (lines 141-153)
for a message that was received: dispatch it through `_handle_message`
and, when a response dict comes back, publish a broker message with a
fresh uuid `mid`, the service's name as sender, message type
`'response'`, the response dict as content and the incoming message's
correlation id.  The `Message` constructor applies its
`correlation_id or message_id` default. -/
def service_step (diskWrite : BMessage → Except String Unit)
    (exec : Dict → Except String PyVal) (agent_name : String)
    (s : BrokerState) (mid : String) (m : BMessage) : BrokerState :=
  match handle_message exec m with
  | none => s
  | some response =>
      let response_msg := BMessage.init mid agent_name
        (responseReceiver response m) "response" response
        (some m.correlation_id)
      publish diskWrite s response_msg

/-- The worker loop of `AgentService._process_messages`, run over the
sequence of messages the broker delivers, each paired with the uuid the
loop draws for its response: the loop body runs once per message and —
the whole body being wrapped in `try/except` — always proceeds to the
next message. -/
def process_messages (diskWrite : BMessage → Except String Unit)
    (exec : Dict → Except String PyVal) (agent_name : String)
    (s : BrokerState) (delivered : List (String × BMessage)) : BrokerState :=
  delivered.foldl (fun st p => service_step diskWrite exec agent_name st p.1 p.2) s

/-! ### DistributedOrchestrator (src/distributed/distributed_orchestrator.py) -/

/-- A `pending_tasks` entry (lines 48-52); the wall-clock `start_time`
is not modelled. -/
structure PendingTask where
  status : String
  story_idea : Dict

/-- Insert/replace in the `pending_tasks` dict. -/
def pendingSet : List (String × PendingTask) → String → PendingTask →
    List (String × PendingTask)
  | [], k, v => [(k, v)]
  | (k', v') :: rest, k, v =>
      if k' = k then (k, v) :: rest else (k', v') :: pendingSet rest k v

/-- `del pending_tasks[k]` (the entry is present at the source's only
call site, having been inserted at the start of `create_story`). -/
def pendingErase : List (String × PendingTask) → String →
    List (String × PendingTask)
  | [], _ => []
  | (k', v') :: rest, k =>
      if k' = k then rest else (k', v') :: pendingErase rest k

/-- The timeout result dict (distributed_orchestrator.py lines 108-112). -/
def timeoutResultDict (timeout : Nat) (cid : String) : Dict :=
  [("status", .vStr "timeout"),
   ("message", .vStr ("Story creation timed out after " ++ toString timeout ++ " seconds")),
   ("correlation_id", .vStr cid)]

/-- The error result dict (lines 93-97): status `error`, the carried
`content.get('error')` as message, the correlation id. -/
def errorResultDict (response : BMessage) (cid : String) : Dict :=
  [("status", .vStr "error"),
   ("message", dictGetD response.content "error" .vNone),
   ("correlation_id", .vStr cid)]

/-- The wait loop of `DistributedOrchestrator.create_story` (lines
73-112).  `incoming` is the sequence of outcomes of the repeated
`receive('Orchestrator', timeout=1.0)` calls (`none` = the one-second
receive timeout); exhausting it stands for the wall-clock budget
expiring, upon which the timeout dict is returned.  On a matching
`complete` message the `result` payload gets `status`/`correlation_id`
set and the pending entry is deleted; `result['status'] = ...` on a
non-dict payload raises a `TypeError`.  On a matching `error` message
the error dict is returned — the source deletes no pending entry on
this path.  Anything else is logged as progress and the loop continues. -/
def poll_loop (cid : String) (timeout : Nat) :
    List (Option BMessage) → List (String × PendingTask) →
    Except String (Dict × List (String × PendingTask))
  | [], pending => .ok (timeoutResultDict timeout cid, pending)
  | response? :: rest, pending =>
      match response? with
      | none => poll_loop cid timeout rest pending
      | some response =>
          if response.correlation_id == cid then
            if isStr (dictGetD response.content "action" .vNone) "complete" then
              match dictGetD response.content "result" (.vDict []) with
              | .vDict d =>
                  .ok (dictSet (dictSet d "status" (.vStr "complete"))
                         "correlation_id" (.vStr cid),
                       pendingErase pending cid)
              | _ => .error "TypeError: result does not support item assignment"
            else if isStr (dictGetD response.content "action" .vNone) "error" then
              .ok (errorResultDict response cid, pending)
            else poll_loop cid timeout rest pending
          else poll_loop cid timeout rest pending

/-- Orchestrator-side state: the shared broker and the orchestrator's
`pending_tasks` map. -/
structure OrchState where
  broker : BrokerState
  pending : List (String × PendingTask)

/-- `DistributedOrchestrator.create_story` (lines 27-112): record the
pending task under the fresh correlation id `cid`, publish the initial
request to `AuthorService` with content
`{'action': 'create_story', **story_idea}` and message id `mid` (both
ids drawn from uuid4, passed in as parameters), then run the wait loop.
The returned pair is (the Python return value or the exception escaping
to the caller, the orchestrator state left behind). -/
def create_story_dist (diskWrite : BMessage → Except String Unit)
    (st : OrchState) (story_idea : Dict) (cid mid : String) (timeout : Nat)
    (incoming : List (Option BMessage)) : Except String Dict × OrchState :=
  let pending := pendingSet st.pending cid
    { status := "started", story_idea := story_idea }
  let initial := BMessage.init mid "Orchestrator" "AuthorService" "request"
    (dictMerge [("action", .vStr "create_story")] story_idea) (some cid)
  let broker := publish diskWrite st.broker initial
  match poll_loop cid timeout incoming pending with
  | .ok (result, pending') => (.ok result, { broker := broker, pending := pending' })
  | .error e => (.error e, { broker := broker, pending := pending })

/-! ### In-process Message (src/agents/base_agent.py, class Message)

The in-process `Message` carries sender, recipient, content and
message_type; its `id` is derived from sender, recipient and the
creation timestamp (wall clock, not modelled). -/

structure AMessage where
  sender : String
  recipient : String
  content : Dict
  message_type : String

/-! ### AuthorAgent (src/agents/author_agent.py)

The language model behind `_generate_text` is external: it is modelled
by an oracle `gen : String -> String` mapping the prompt to the produced
text (including the `"[Model not loaded]"` fallback when no generator is
loaded).  The agent's story state contributes the list
`current_story['scenes_for_illustration']` of scene dicts. -/

/-- The prompt built inside `AuthorAgent._enhance_scene_description`
(author_agent.py lines 292-304) for a found scene. -/
def describeScenePrompt (scene : Dict) : String :=
  "Provide detailed visual description for an illustrator.\n\nScene: "
    ++ (match dictGetD scene "description" (.vStr "") with
        | .vStr s => s
        | _ => "") ++ "\nCharacters: "
    ++ (match dictGetD scene "characters" (.vStr "") with
        | .vStr s => s
        | _ => "") ++ "\nMood: "
    ++ (match dictGetD scene "mood" (.vStr "") with
        | .vStr s => s
        | _ => "")
    ++ "\n\nDescribe:\n- Character positions and expressions\n- Setting details\n- Lighting and atmosphere\n- Key visual elements\n\nBe specific and visual."

/-- `AuthorAgent._enhance_scene_description` (lines 286-309): scan the
stored illustration scenes for the first whose `id` equals `scene_id`
(Python `==`); generate an enhanced description from its prompt; return
the literal `"Scene not found"` when no scene matches. -/
def enhance_scene_description (storyScenes : List Dict)
    (gen : String → String) (scene_id : PyVal) : String :=
  match storyScenes.find? (fun sc => PyVal.beq (dictGetD sc "id" .vNone) scene_id) with
  | some sc => gen (describeScenePrompt sc)
  | none => "Scene not found"

/-- `AuthorAgent.process_message` (lines 97-120): on a `request`, the
`create_story` action runs `execute_task` (modelled by the `exec`
oracle, `.error` = raised exception) and wraps the result via
`send_message(message.sender, result, "response")`; the `describe_scene`
action answers with `{'scene_id': ..., 'description': ...}`; anything
else returns `None`. -/
def author_process_message (exec : Dict → Except String Dict)
    (storyScenes : List Dict) (gen : String → String)
    (message : AMessage) : Except String (Option AMessage) :=
  if message.message_type == "request" then
    if isStr (dictGetD message.content "action" .vNone) "create_story" then
      (exec message.content).map (fun result => some
        { sender := "AuthorAgent", recipient := message.sender,
          content := result, message_type := "response" })
    else if isStr (dictGetD message.content "action" .vNone) "describe_scene" then
      let scene_id := dictGetD message.content "scene_id" .vNone
      let description := enhance_scene_description storyScenes gen scene_id
      .ok (some
        { sender := "AuthorAgent", recipient := message.sender,
          content := [("scene_id", scene_id), ("description", .vStr description)],
          message_type := "response" })
    else .ok none
  else .ok none

/-! ### StoryOrchestrator, the in-process variant
(src/orchestrator/coordinator.py)

Each worker's `receive_message` (appending to its memory, then
`process_message`) is modelled as a function
`AMessage -> Except String (Option AMessage)`: `.error e` is a raised
exception escaping the call, `.ok none` the `None` response.
Logging-only expressions that can raise solely on malformed caller
input (`task_input`) are elided; logging expressions that subscript
worker-produced content are kept, since they raise on worker behavior. -/

/-- Whether `pre` is a prefix of `cs`, on character lists. -/
def prefixOfChars : List Char → List Char → Bool
  | [], _ => true
  | _ :: _, [] => false
  | a :: as, b :: bs => a == b && prefixOfChars as bs

/-- Whether `needle` occurs as a contiguous run inside `hay` — Python's
`needle in hay` substring test, on character lists. -/
def charsContain : List Char → List Char → Bool
  | [], needle => needle.isEmpty
  | c :: rest, needle => prefixOfChars needle (c :: rest) || charsContain rest needle

/-- Python `word in description` substring membership. -/
def strContains (description word : String) : Bool :=
  charsContain description.toList word.toList

/-- `StoryOrchestrator._scene_needs_clarification` (lines 224-236):
`description = scene.get('description', '')`; clarification is needed
when `len(description) < 50` or when none of the positional keywords
occurs in `description.lower()`.  `len` of a non-string stored
description would raise, hence the `Except`. -/
def scene_needs_clarification (scene : Dict) : Except String Bool :=
  match dictGetD scene "description" (.vStr "") with
  | .vStr description =>
      .ok (decide (description.length < 50)
        || !(["standing", "sitting", "looking"].any
              (fun w => strContains description.toLower w)))
  | _ => .error "TypeError: object has no len"

/-- The clarification request the orchestrator fabricates on behalf of
the illustrator (coordinator.py lines 158-166). -/
def clarificationMsg (scene : Dict) : AMessage :=
  { sender := "IllustratorAgent", recipient := "AuthorAgent",
    content := [("action", .vStr "describe_scene"),
                ("scene_id", dictGetD scene "id" .vNone)],
    message_type := "request" }

/-- One iteration of the clarification loop in `_phase_illustration`
(lines 155-172), on one scene of the list: when the clarity heuristic
fails, send the clarification request to the author and — if a response
came back — overwrite `scene['description']` with
`response.content.get('description', scene['description'])` (the
eagerly-evaluated default subscripts the scene, raising `KeyError` when
it has no description).  Returns the (possibly updated) scene together
with the list of clarification requests sent for it. -/
def clarify_scene (author : AMessage → Except String (Option AMessage))
    (sc : PyVal) : Except String (PyVal × List AMessage) := do
  let scene ← pyAsDict sc
  let need ← scene_needs_clarification scene
  if need then
    let msg := clarificationMsg scene
    let author_response ← author msg
    match author_response with
    | some resp => do
        let orig ← pySubscript scene "description"
        pure (.vDict (dictSet scene "description"
                (dictGetD resp.content "description" orig)), [msg])
    | none => pure (sc, [msg])
  else
    pure (sc, [])

/-- The message `_phase_story_creation` sends to the author
(coordinator.py lines 122-133). -/
def phase1Msg (story_idea : Dict) : AMessage :=
  { sender := "Orchestrator", recipient := "AuthorAgent",
    content := [("action", .vStr "create_story"),
                ("plot", dictGetD story_idea "plot" (.vStr "")),
                ("themes", dictGetD story_idea "themes" (.vList [])),
                ("target_age", dictGetD story_idea "target_age" (.vStr "8-12")),
                ("length", dictGetD story_idea "length" (.vStr "short"))],
    message_type := "request" }

/-- `StoryOrchestrator._phase_story_creation` (lines 118-142): send the
task to the author; when a response arrives with status `complete`, log
`len(response.content['chapters'])` (which subscripts and measures the
worker-produced content) and return the content; otherwise return
`{'status': 'error'}`. -/
def phase_story_creation (author : AMessage → Except String (Option AMessage))
    (story_idea : Dict) : Except String Dict := do
  let response ← author (phase1Msg story_idea)
  match response with
  | some r =>
      if isStr (dictGetD r.content "status" .vNone) "complete" then do
        let chapters ← pySubscript r.content "chapters"
        let _ ← pyLen chapters
        pure r.content
      else pure [("status", .vStr "error")]
  | none => pure [("status", .vStr "error")]

/-- The tail of `_phase_illustration` after the illustrator responds
(lines 187-193): on a `complete` response, log
`len(response.content['images'])` and return the content; otherwise
`{'status': 'error'}`. -/
def phase2_finish (response : Option AMessage) : Except String Dict :=
  match response with
  | some r =>
      if isStr (dictGetD r.content "status" .vNone) "complete" then do
        let images ← pySubscript r.content "images"
        let _ ← pyLen images
        pure r.content
      else pure [("status", .vStr "error")]
  | none => pure [("status", .vStr "error")]

/-- `StoryOrchestrator._phase_illustration` (lines 144-193): read the
scene list and the characters out of the phase-1 result, run the
clarification loop over the scenes (mutating them in place), send the
illustration task carrying the updated scenes, and check the response. -/
def phase_illustration (author illustrator : AMessage → Except String (Option AMessage))
    (story_result : Dict) (art_style : PyVal) : Except String Dict := do
  let scenes ← pyAsList (dictGetD story_result "illustration_scenes" (.vList []))
  let storyD ← pyAsDict (← pySubscript story_result "story")
  let characters := dictGetD storyD "characters" (.vList [])
  let pairs ← scenes.mapM (clarify_scene author)
  let scenes' := pairs.map Prod.fst
  let msg : AMessage :=
    { sender := "Orchestrator", recipient := "IllustratorAgent",
      content := [("action", .vStr "generate_illustrations"),
                  ("scenes", .vList scenes'),
                  ("characters", characters),
                  ("art_style", art_style)],
      message_type := "request" }
  let response ← illustrator msg
  phase2_finish response

/-- `StoryOrchestrator._phase_publication` (lines 195-222): build the
publication task from `story_result['story']`,
`illustration_result['images']`, the sliced plot title and the
configured output directory (the default configuration's
`'output/publications'`); on a `complete` response, log `len(files)` for
`files = response.content.get('files', {})` and iterate `files.items()`,
then return the content; otherwise `{'status': 'error'}`. -/
def phase_publication (publisher : AMessage → Except String (Option AMessage))
    (sr ir si : Dict) : Except String Dict := do
  let story ← pySubscript sr "story"
  let images ← pySubscript ir "images"
  let title ← pySliceStr (dictGetD si "plot" (.vStr "Untitled Story")) 50
  let msg : AMessage :=
    { sender := "Orchestrator", recipient := "PublisherAgent",
      content := [("action", .vStr "publish"),
                  ("story", story),
                  ("images", images),
                  ("title", .vStr title),
                  ("output_dir", .vStr "output/publications")],
      message_type := "request" }
  let response ← publisher msg
  match response with
  | some r =>
      if isStr (dictGetD r.content "status" .vNone) "complete" then do
        let files := dictGetD r.content "files" (.vDict [])
        let _ ← pyLen files
        let _ ← pyAsDict files
        pure r.content
      else pure [("status", .vStr "error")]
  | none => pure [("status", .vStr "error")]

/-- `StoryOrchestrator.create_story` (coordinator.py lines 46-116), the
in-process variant: run phase 1 and return a structured error result
when it does not report `complete`; likewise for phase 2; run phase 3
and assemble the final result dict — WITHOUT checking phase 3's status.
The assembly evaluates, in the source's dict-literal order,
`story_result['story']`, `illustration_result['images']`,
`publication_result['files']`, the sliced title,
`len(story_result['chapters'])`, `len(illustration_result['images'])`
and `publication_result.get('page_count', 0)`; any of the subscripts may
raise a `KeyError`.  Nothing in the method catches exceptions, so a
worker's exception (an `.error` from a phase) escapes to the caller. -/
def create_story_inproc
    (author illustrator publisher : AMessage → Except String (Option AMessage))
    (story_idea : Dict) : Except String Dict := do
  let story_result ← phase_story_creation author story_idea
  if !isStr (dictGetD story_result "status" .vNone) "complete" then
    pure [("status", .vStr "error"), ("message", .vStr "Story creation failed")]
  else do
    let illustration_result ← phase_illustration author illustrator story_result
      (dictGetD story_idea "art_style" (.vStr "children_book"))
    if !isStr (dictGetD illustration_result "status" .vNone) "complete" then
      pure [("status", .vStr "error"), ("message", .vStr "Illustration failed")]
    else do
      let publication_result ← phase_publication publisher
        story_result illustration_result story_idea
      let story ← pySubscript story_result "story"
      let images ← pySubscript illustration_result "images"
      let publications ← pySubscript publication_result "files"
      let title ← pySliceStr (dictGetD story_idea "plot" (.vStr "Untitled")) 50
      let nChapters ← pyLen (← pySubscript story_result "chapters")
      let nImages ← pyLen (← pySubscript illustration_result "images")
      pure [("status", .vStr "complete"),
            ("story", story),
            ("images", images),
            ("publications", publications),
            ("metadata", .vDict
              [("title", .vStr title),
               ("chapters", .vNat nChapters),
               ("images", .vNat nImages),
               ("page_count", dictGetD publication_result "page_count" (.vNat 0))])]

/-! ### Object identity and `==` on Message instances

Neither `Message` class (message_broker.py lines 18-60,
base_agent.py lines 14-27) defines `__eq__`, so CPython compares
instances with the default `object.__eq__`: identity.  An instance is
modelled as its payload together with an allocation address;
separately-constructed instances have distinct addresses. -/

structure PyObjMessage where
  addr : Nat
  payload : BMessage

/-- Python `==` on two `Message` instances: default object identity. -/
def pyMessageEq (a b : PyObjMessage) : Bool :=
  a.addr == b.addr

/-! ### Helper lemmas -/

theorem isStr_eq {v : PyVal} {s : String} (h : isStr v s = true) : v = .vStr s := by
  cases v <;> simp [isStr] at h
  subst h; rfl

theorem dictGet_dictSet_self (d : Dict) (k : String) (v : PyVal) :
    dictGet (dictSet d k v) k = some v := by
  induction d with
  | nil => simp [dictSet, dictGet]
  | cons kv rest ih =>
      obtain ⟨k', v'⟩ := kv
      by_cases h : k' = k <;> simp [dictSet, dictGet, h, ih]

theorem dictGet_dictSet_of_ne (d : Dict) (k k' : String) (v : PyVal)
    (h : k' ≠ k) : dictGet (dictSet d k v) k' = dictGet d k' := by
  have h' : k ≠ k' := Ne.symm h
  induction d with
  | nil => simp [dictSet, dictGet, h']
  | cons kv rest ih =>
      obtain ⟨k₀, v₀⟩ := kv
      by_cases h₀ : k₀ = k
      · subst h₀
        simp [dictSet, dictGet, h']
      · by_cases h₁ : k₀ = k' <;> simp [dictSet, dictGet, h₀, h₁, h, ih]

theorem alookup_append_of_none {α : Type} (l₁ l₂ : List (String × α)) (k : String)
    (h : alookup l₁ k = none) : alookup (l₁ ++ l₂) k = alookup l₂ k := by
  induction l₁ with
  | nil => simp
  | cons kv rest ih =>
      obtain ⟨k', v⟩ := kv
      by_cases hk : k' = k
      · simp [alookup, hk] at h
      · simp [alookup, hk] at h ⊢
        exact ih h

theorem enqueue_lookup_self (qs : List (String × List BMessage)) (n : String)
    (m : BMessage) :
    alookup (enqueue qs n m) n = some ((alookup qs n).getD [] ++ [m]) := by
  induction qs with
  | nil => simp [enqueue, alookup]
  | cons kv rest ih =>
      obtain ⟨k, q⟩ := kv
      by_cases hk : k = n <;> simp [enqueue, alookup, hk, ih]

theorem create_queue_lookup (s : BrokerState) (n : String) :
    alookup (create_queue s n).queues n = some ((alookup s.queues n).getD []) := by
  unfold create_queue
  cases h : alookup s.queues n with
  | none => simp [h, alookup_append_of_none _ _ _ h, alookup]
  | some q => simp [h]

theorem create_queue_history (s : BrokerState) (n : String) :
    (create_queue s n).history = s.history := by
  unfold create_queue
  split <;> rfl

theorem publish_history (dw : BMessage → Except String Unit)
    (s : BrokerState) (m : BMessage) :
    (publish dw s m).history = s.history ++ [m] := by
  simp [publish, create_queue_history]

theorem publish_queue_self (dw : BMessage → Except String Unit)
    (s : BrokerState) (m : BMessage) :
    alookup (publish dw s m).queues m.receiver
      = some ((alookup s.queues m.receiver).getD [] ++ [m]) := by
  simp [publish, enqueue_lookup_self, create_queue_lookup]

theorem publishAll_history (dw : BMessage → Except String Unit)
    (s : BrokerState) (ms : List BMessage) :
    (publishAll dw s ms).history = s.history ++ ms := by
  induction ms generalizing s with
  | nil => simp [publishAll]
  | cons m rest ih =>
      show (publishAll dw (publish dw s m) rest).history = _
      rw [ih, publish_history]
      simp

theorem filter_key_nil_of_notmem {α : Type} (l : List (String × α)) (k : String)
    (h : k ∉ l.map Prod.fst) : l.filter (fun p => p.1 == k) = [] := by
  induction l with
  | nil => rfl
  | cons kv rest ih =>
      obtain ⟨k', v⟩ := kv
      have h1 : k' ≠ k := by
        intro hh
        exact h (by simp [hh])
      have h2 : k ∉ rest.map Prod.fst := by
        intro hh
        exact h (by simp [hh])
      simp [List.filter_cons, h1, ih h2]

theorem filter_key_nil_of_alookup_none {α : Type} (l : List (String × α)) (k : String)
    (h : alookup l k = none) : l.filter (fun p => p.1 == k) = [] := by
  induction l with
  | nil => rfl
  | cons kv rest ih =>
      obtain ⟨k', v⟩ := kv
      by_cases hk : k' = k
      · simp [alookup, hk] at h
      · have h' : alookup rest k = none := by simpa [alookup, hk] using h
        simp [List.filter_cons, hk, ih h']

theorem filter_key_one_of_nodup {α : Type} (l : List (String × α)) (k : String)
    (v : α) (hnd : (l.map Prod.fst).Nodup) (h : alookup l k = some v) :
    (l.filter (fun p => p.1 == k)).length = 1 := by
  induction l with
  | nil => simp [alookup] at h
  | cons kv rest ih =>
      obtain ⟨k', v'⟩ := kv
      simp only [List.map_cons, List.nodup_cons] at hnd
      by_cases hk : k' = k
      · subst hk
        simp [List.filter_cons, filter_key_nil_of_notmem rest k' hnd.1]
      · have h' : alookup rest k = some v := by simpa [alookup, hk] using h
        simp [List.filter_cons, hk, ih hnd.2 h']

/-- A `create_queue` call on a name that already has a queue returns the
state unchanged (the guard in message_broker.py line 82). -/
theorem create_queue_of_isSome (s : BrokerState) (n : String)
    (h : (alookup s.queues n).isSome = true) : create_queue s n = s := by
  unfold create_queue
  simp [h]

/-! ### Concrete fixtures for witnesses and counterexamples -/

/-- A disk-write oracle that always succeeds. -/
def dwOk : BMessage → Except String Unit := fun _ => .ok ()

/-- A task execution that always raises (`str(e) = "boom"`). -/
def execBoom : Dict → Except String PyVal := fun _ => .error "boom"

/-- A `create_story` request carried by the broker, correlation id `c1`. -/
def mC2 : BMessage := BMessage.init "m1" "Orchestrator" "AuthorService" "request"
  [("action", .vStr "create_story"), ("plot", .vStr "p")] (some "c1")

/-- A message published under correlation id `c1`. -/
def mA : BMessage := BMessage.init "a1" "X" "Y" "request" [] (some "c1")

/-- A message published under correlation id `c2`. -/
def mB : BMessage := BMessage.init "b1" "X" "Y" "request" [] (some "c2")

/-- An error signal addressed to the orchestrator under correlation `c1`. -/
def errMsgC : BMessage := BMessage.init "m2" "AuthorService" "Orchestrator" "response"
  [("action", .vStr "error"), ("error", .vStr "boom"), ("correlation_id", .vStr "c1")]
  (some "c1")

/-- A pending-task record as `create_story` installs it. -/
def pendC : PendingTask := { status := "started", story_idea := [] }

/-- An author worker whose task raises no exception and reports a
complete empty story with no scenes. -/
def authorOkC : AMessage → Except String (Option AMessage) := fun _ =>
  .ok (some
    { sender := "AuthorAgent"
      recipient := "Orchestrator"
      content := [("status", .vStr "complete"), ("story", .vDict []),
                  ("chapters", .vList []), ("illustration_scenes", .vList [])]
      message_type := "response" })

/-- An author worker that returns no response (`None`). -/
def authorNoneC : AMessage → Except String (Option AMessage) := fun _ => .ok none

/-- An illustrator worker reporting a complete result with no images. -/
def illusOkC : AMessage → Except String (Option AMessage) := fun _ =>
  .ok (some
    { sender := "IllustratorAgent"
      recipient := "Orchestrator"
      content := [("status", .vStr "complete"), ("images", .vList [])]
      message_type := "response" })

/-- A publisher worker reporting a non-complete status. -/
def pubFailC : AMessage → Except String (Option AMessage) := fun _ =>
  .ok (some
    { sender := "PublisherAgent"
      recipient := "Orchestrator"
      content := [("status", .vStr "fail")]
      message_type := "response" })

/-! ### Claim theorems -/

/-- Claim C5 (confirmed): for every correlation id `c` and every sequence
of publishes, `get_messages_by_correlation` returns exactly the
subsequence of the message history whose `correlation_id` equals `c`, in
publish order, and every returned message carries correlation id `c` —
so nothing published under a different correlation id (e.g. by a
concurrent task) appears. -/
theorem correlation_query_exact (dw : BMessage → Except String Unit)
    (s : BrokerState) (ms : List BMessage) (c : String) :
    get_messages_by_correlation (publishAll dw s ms) c
      = get_messages_by_correlation s c ++ ms.filter (fun m => m.correlation_id == c)
    ∧ ∀ m ∈ get_messages_by_correlation (publishAll dw s ms) c,
        m.correlation_id = c := by
  constructor
  · unfold get_messages_by_correlation
    rw [publishAll_history, List.filter_append]
  · intro m hm
    unfold get_messages_by_correlation at hm
    have h := (List.mem_filter.mp hm).2
    simpa using h

/-- Witness for C5: publishing one `c1` message and one `c2` message into
an empty broker, the `c1` query returns exactly the `c1` message. -/
theorem correlation_query_exact_witness :
    get_messages_by_correlation (publishAll dwOk ⟨[], []⟩ [mA, mB]) "c1" = [mA] := by
  have h := (correlation_query_exact dwOk ⟨[], []⟩ [mA, mB] "c1").1
  rw [h]
  rfl

/-- Claim C6 (confirmed): when persisting a published message to disk
fails (the write raises), `publish` leaves the broker in exactly the
state of the success path — the message is still appended to the
receiver's queue and to the message history — and returns normally
(`publish` is a total function of the state in this model because
`_save_message` catches every exception). -/
theorem publish_disk_failure_swallowed (e : String) (s : BrokerState) (m : BMessage) :
    publish (fun _ => .error e) s m = publish (fun _ => .ok ()) s m
    ∧ (publish (fun _ => .error e) s m).history = s.history ++ [m]
    ∧ alookup (publish (fun _ => .error e) s m).queues m.receiver
        = some ((alookup s.queues m.receiver).getD [] ++ [m]) :=
  ⟨rfl, publish_history _ s m, publish_queue_self _ s m⟩

/-- Claim C7 (confirmed): `create_queue` is idempotent — a second call
for the same name is the identity, the queue for the name exists
afterwards, an existing queue (with all its messages) is left unchanged,
and (for a well-formed queue map, whose names are distinct as in any
Python dict) exactly one queue for the name remains. -/
theorem create_queue_idempotent_thm (s : BrokerState) (n : String) :
    create_queue (create_queue s n) n = create_queue s n
    ∧ (alookup (create_queue s n).queues n).isSome = true
    ∧ (∀ q, alookup s.queues n = some q →
        alookup (create_queue s n).queues n = some q)
    ∧ ((s.queues.map Prod.fst).Nodup →
        ((create_queue s n).queues.filter (fun p => p.1 == n)).length = 1) := by
  refine ⟨?_, ?_, ?_, ?_⟩
  · exact create_queue_of_isSome _ _ (by rw [create_queue_lookup]; rfl)
  · rw [create_queue_lookup]
    rfl
  · intro q hq
    rw [create_queue_lookup, hq]
    rfl
  · intro hnd
    cases h : alookup s.queues n with
    | some q =>
        rw [create_queue_of_isSome s n (by rw [h]; rfl)]
        exact filter_key_one_of_nodup s.queues n q hnd h
    | none =>
        unfold create_queue
        simp only [h, Option.isSome_none, Bool.false_eq_true, if_false]
        rw [List.filter_append, filter_key_nil_of_alookup_none s.queues n h]
        simp

/-- Witness for C7: on a broker holding one queue `q1`, the existing
queue is preserved and exactly one `q1` queue remains. -/
theorem create_queue_idempotent_witness :
    alookup (create_queue ⟨[("q1", [])], []⟩ "q1").queues "q1" = some []
    ∧ ((create_queue ⟨[("q1", [])], []⟩ "q1").queues.filter
        (fun p => p.1 == "q1")).length = 1 :=
  ⟨(create_queue_idempotent_thm ⟨[("q1", [])], []⟩ "q1").2.2.1 [] rfl,
   (create_queue_idempotent_thm ⟨[("q1", [])], []⟩ "q1").2.2.2 (by simp)⟩

/-- A concrete message used for the identity-equality analysis. -/
def msgX : BMessage := BMessage.init "mX" "a" "b" "request" [] none

/-- Claim C9 counterexample: two separately constructed `Message`
instances (distinct allocation addresses) carrying the same `id` field
do NOT compare equal — neither `Message` class defines `__eq__`, so
CPython falls back to identity comparison.  This falsifies "m1 equals m2
if and only if their id fields are equal". -/
theorem message_eq_by_id_counterexample :
    ¬ (pyMessageEq ⟨0, msgX⟩ ⟨1, msgX⟩ = true
        ↔ (⟨0, msgX⟩ : PyObjMessage).payload.message_id
            = (⟨1, msgX⟩ : PyObjMessage).payload.message_id) := by
  intro h
  have : pyMessageEq ⟨0, msgX⟩ ⟨1, msgX⟩ = true := h.mpr rfl
  simp [pyMessageEq] at this

/-- Claim C9 (corrected): `Message` equality is Python's default object
identity, not id-field equality — two instances compare equal exactly
when they are the same object (same allocation address); in particular
every instance equals itself. -/
theorem message_eq_is_identity (a b : PyObjMessage) :
    (pyMessageEq a b = true ↔ a.addr = b.addr) ∧ pyMessageEq a a = true := by
  constructor
  · simp [pyMessageEq]
  · simp [pyMessageEq]

/-- Claim C10 counterexample: a caller CAN construct a `Message` whose
`correlation_id` is the empty string — pass an empty `message_id`
together with a falsy `correlation_id`; `correlation_id or message_id`
then yields the empty string. -/
theorem empty_correlation_id_counterexample :
    (BMessage.init "" "a" "b" "request" [] none).correlation_id = ""
    ∧ (BMessage.init "" "a" "b" "request" [] (some "")).correlation_id = "" :=
  ⟨rfl, rfl⟩

/-- Claim C10 (corrected): a falsy `correlation_id` (absent, `None` or
the empty string — including through `from_dict` from a mapping without
a truthy `correlation_id` entry) is replaced by `message_id`; hence the
`correlation_id` of a constructed message is non-empty whenever its
`message_id` is, and a message with empty `correlation_id` can arise
only from an empty `message_id`. -/
theorem correlation_id_defaulting (mid snd rcv mty : String) (c : Dict)
    (data : Dict) (m : BMessage) :
    (BMessage.init mid snd rcv mty c none).correlation_id = mid
    ∧ (BMessage.init mid snd rcv mty c (some "")).correlation_id = mid
    ∧ (∀ cid, (BMessage.init mid snd rcv mty c cid).correlation_id = "" → mid = "")
    ∧ (mid ≠ "" → ∀ cid, (BMessage.init mid snd rcv mty c cid).correlation_id ≠ "")
    ∧ (BMessage.fromDict data = .ok m →
        (dictGet data "correlation_id" = none
          ∨ dictGet data "correlation_id" = some .vNone
          ∨ dictGet data "correlation_id" = some (.vStr "")) →
        m.correlation_id = m.message_id) := by
  refine ⟨rfl, by simp [BMessage.init, pyOrStr], ?_, ?_, ?_⟩
  · intro cid h
    cases cid with
    | none => exact h
    | some s =>
        by_cases hs : s = ""
        · simp [BMessage.init, pyOrStr, hs] at h
          exact h
        · simp [BMessage.init, pyOrStr, hs] at h
  · intro hm cid h
    cases cid with
    | none => exact hm h
    | some s =>
        by_cases hs : s = ""
        · simp [BMessage.init, pyOrStr, hs] at h
          exact hm h
        · simp [BMessage.init, pyOrStr, hs] at h
  · intro hok hfalsy
    have hcid : (match dictGet data "correlation_id" with
        | some (.vStr s) => some s
        | _ => (none : Option String)) = none ∨
        (match dictGet data "correlation_id" with
        | some (.vStr s) => some s
        | _ => (none : Option String)) = some "" := by
      rcases hfalsy with h | h | h <;> simp [h]
    unfold BMessage.fromDict at hok
    simp only [bind, Except.bind] at hok
    cases h1 : pyStrField data "message_id" with
    | error e => rw [h1] at hok; cases hok
    | ok mid' =>
    rw [h1] at hok
    cases h2 : pyStrField data "sender" with
    | error e => rw [h2] at hok; cases hok
    | ok snd' =>
    rw [h2] at hok
    cases h3 : pyStrField data "receiver" with
    | error e => rw [h3] at hok; cases hok
    | ok rcv' =>
    rw [h3] at hok
    cases h4 : pyStrField data "message_type" with
    | error e => rw [h4] at hok; cases hok
    | ok mty' =>
    rw [h4] at hok
    cases h5 : pySubscript data "content" with
    | error e => rw [h5] at hok; cases hok
    | ok cv =>
    rw [h5] at hok
    cases cv with
    | vDict cnt =>
        simp only [pure, Except.pure] at hok
        rcases hcid with hc | hc
        · rw [hc] at hok
          cases hok
          rfl
        · rw [hc] at hok
          cases hok
          simp [BMessage.init, pyOrStr]
    | vNone => cases hok
    | vStr s => cases hok
    | vNat n => cases hok
    | vList xs => cases hok

/-- A serialized message mapping without a `correlation_id` entry. -/
def dataC10 : Dict :=
  [("message_id", .vStr "m1"), ("sender", .vStr "a"), ("receiver", .vStr "b"),
   ("message_type", .vStr "request"), ("content", .vDict [])]

/-- The message `from_dict` rebuilds out of `dataC10`. -/
def mC10 : BMessage := BMessage.init "m1" "a" "b" "request" [] none

/-- Witness for C10: a message reconstructed from a mapping without a
`correlation_id` entry ends up with `correlation_id = message_id`, and a
truthy correlation id on a message with non-empty `message_id` stays
non-empty. -/
theorem correlation_id_defaulting_witness :
    mC10.correlation_id = mC10.message_id
    ∧ (BMessage.init "m1" "a" "b" "request" [] (some "x")).correlation_id ≠ "" :=
  ⟨(correlation_id_defaulting "m1" "a" "b" "request" [] dataC10 mC10).2.2.2.2
      rfl (Or.inl rfl),
   (correlation_id_defaulting "m1" "a" "b" "request" [] dataC10 mC10).2.2.2.1
      (by decide) (some "x")⟩

/-- Claim C4 (confirmed): the dispatch of `_handle_message` is exactly
the static routing table — a successful `create_story` task yields the
response dict addressed to `IllustratorService` with action
`generate_illustrations`; `generate_illustrations` to
`PublisherService` with action `create_publication`;
`create_publication` back to `Orchestrator` with action `complete`;
every produced response dict carries the incoming message's correlation
id; and a falsy or unknown action produces no response at all. -/
theorem dispatch_routing_table (exec : Dict → Except String PyVal) (m : BMessage) :
    (∀ r, dictGetD m.content "action" .vNone = .vStr "create_story" →
        exec m.content = .ok r →
        handle_message exec m = some
          [("receiver", .vStr "IllustratorService"),
           ("action", .vStr "generate_illustrations"),
           ("story_data", r),
           ("correlation_id", .vStr m.correlation_id)])
    ∧ (∀ r, dictGetD m.content "action" .vNone = .vStr "generate_illustrations" →
        exec m.content = .ok r →
        handle_message exec m = some
          [("receiver", .vStr "PublisherService"),
           ("action", .vStr "create_publication"),
           ("story_data", dictGetD m.content "story_data" .vNone),
           ("illustrations", r),
           ("correlation_id", .vStr m.correlation_id)])
    ∧ (∀ r, dictGetD m.content "action" .vNone = .vStr "create_publication" →
        exec m.content = .ok r →
        handle_message exec m = some
          [("receiver", .vStr "Orchestrator"),
           ("action", .vStr "complete"),
           ("result", r),
           ("correlation_id", .vStr m.correlation_id)])
    ∧ (pyTruthy (dictGetD m.content "action" .vNone) = false →
        handle_message exec m = none)
    ∧ (∀ s, dictGetD m.content "action" .vNone = .vStr s → s ≠ "" →
        s ≠ "create_story" → s ≠ "generate_illustrations" →
        s ≠ "create_publication" → handle_message exec m = none) := by
  refine ⟨?_, ?_, ?_, ?_, ?_⟩
  · intro r ha hx
    simp [handle_message, ha, hx, isStr, pyTruthy, Except.map]
  · intro r ha hx
    simp [handle_message, ha, hx, isStr, pyTruthy, Except.map]
  · intro r ha hx
    simp [handle_message, ha, hx, isStr, pyTruthy, Except.map]
  · intro h
    simp [handle_message, h]
  · intro s ha hne h1 h2 h3
    simp [handle_message, ha, isStr, pyTruthy, hne, h1, h2, h3]

/-- Witness for C4: a concrete `create_story` message with a succeeding
task is routed to the illustration stage under correlation `c1`. -/
theorem dispatch_routing_table_witness :
    handle_message (fun _ => .ok (.vStr "res")) mC2 = some
      [("receiver", .vStr "IllustratorService"),
       ("action", .vStr "generate_illustrations"),
       ("story_data", .vStr "res"),
       ("correlation_id", .vStr "c1")] := by
  have h := (dispatch_routing_table (fun _ => .ok (.vStr "res")) mC2).1
    (.vStr "res") rfl rfl
  simpa [mC2, BMessage.init, pyOrStr] using h

/-- Claim C2 (confirmed): when the wrapped agent's task execution raises
on a message with a known action, `_handle_message` catches the
exception and returns the error-response dict, and the worker-loop step
publishes exactly one message — addressed back to the original sender,
with the payload action tag `error` (the discriminator the orchestrator
matches on), the exception's description, and the incoming message's
correlation id (any real message's correlation id is non-empty, see the
C10 analysis, so the constructor's `or` default keeps it) — and the
processing loop goes on to the remaining messages. -/
theorem worker_error_isolation (dw : BMessage → Except String Unit)
    (exec : Dict → Except String PyVal) (name mid : String)
    (s : BrokerState) (m : BMessage) (e : String)
    (hknown : dictGetD m.content "action" .vNone = .vStr "create_story"
      ∨ dictGetD m.content "action" .vNone = .vStr "generate_illustrations"
      ∨ dictGetD m.content "action" .vNone = .vStr "create_publication")
    (hexec : exec m.content = .error e)
    (hcid : m.correlation_id ≠ "") :
    handle_message exec m = some (errorResponseDict m e)
    ∧ service_step dw exec name s mid m
        = publish dw s (BMessage.init mid name m.sender "response"
            (errorResponseDict m e) (some m.correlation_id))
    ∧ (service_step dw exec name s mid m).history
        = s.history ++ [BMessage.init mid name m.sender "response"
            (errorResponseDict m e) (some m.correlation_id)]
    ∧ (BMessage.init mid name m.sender "response" (errorResponseDict m e)
        (some m.correlation_id)).receiver = m.sender
    ∧ (BMessage.init mid name m.sender "response" (errorResponseDict m e)
        (some m.correlation_id)).correlation_id = m.correlation_id
    ∧ dictGet (errorResponseDict m e) "action" = some (.vStr "error")
    ∧ dictGet (errorResponseDict m e) "error" = some (.vStr e)
    ∧ (∀ (rest : List (String × BMessage)) (s' : BrokerState),
        process_messages dw exec name s' ((mid, m) :: rest)
          = process_messages dw exec name (service_step dw exec name s' mid m) rest) := by
  have hhandle : handle_message exec m = some (errorResponseDict m e) := by
    rcases hknown with ha | ha | ha <;>
      simp [handle_message, ha, hexec, isStr, pyTruthy, errorResponseDict, Except.map]
  have hstep : service_step dw exec name s mid m
      = publish dw s (BMessage.init mid name m.sender "response"
          (errorResponseDict m e) (some m.correlation_id)) := by
    unfold service_step
    rw [hhandle]
    simp [responseReceiver, errorResponseDict, dictGet]
  refine ⟨hhandle, hstep, ?_, rfl, ?_, rfl, rfl, ?_⟩
  · rw [hstep, publish_history]
  · simp [BMessage.init, pyOrStr, hcid]
  · intro rest s'
    rfl

/-- Witness for C2: a concrete raising task on a `create_story` message
publishes exactly the error response into an empty broker. -/
theorem worker_error_isolation_witness :
    (service_step dwOk execBoom "AuthorService" ⟨[], []⟩ "m9" mC2).history
      = [] ++ [BMessage.init "m9" "AuthorService" mC2.sender "response"
          (errorResponseDict mC2 "boom") (some mC2.correlation_id)] :=
  (worker_error_isolation dwOk execBoom "AuthorService" "m9" ⟨[], []⟩ mC2 "boom"
    (Or.inl rfl) rfl (by decide)).2.2.1

/-- Claim C3 counterexample: an error-signalling message with matching
correlation id makes the poll loop return the error result, but the
pending entry for `c1` is still present afterwards — the source deletes
the entry only on the `complete` path, falsifying "the Pending Task
entry for that correlation id is removed". -/
theorem poll_error_counterexample :
    poll_loop "c1" 30 [some errMsgC] [("c1", pendC)]
      = .ok ([("status", .vStr "error"), ("message", .vStr "boom"),
              ("correlation_id", .vStr "c1")], [("c1", pendC)])
    ∧ alookup [("c1", pendC)] "c1" = some pendC :=
  ⟨rfl, rfl⟩

/-- Claim C3 (corrected): when the poll loop of the distributed
`create_story` receives a message with matching correlation id whose
payload action signals an error, it returns a result with status
`error` carrying the message's error text — but the `pending_tasks`
entry is returned UNCHANGED: unlike the complete path, the error path
does not remove it. -/
theorem poll_error_keeps_pending (cid : String) (t : Nat)
    (rest : List (Option BMessage)) (pending : List (String × PendingTask))
    (response : BMessage)
    (hc : response.correlation_id = cid)
    (ha : dictGetD response.content "action" .vNone = .vStr "error") :
    poll_loop cid t (some response :: rest) pending
      = .ok (errorResultDict response cid, pending)
    ∧ dictGet (errorResultDict response cid) "status" = some (.vStr "error")
    ∧ dictGet (errorResultDict response cid) "message"
        = some (dictGetD response.content "error" .vNone) := by
  refine ⟨?_, rfl, rfl⟩
  simp [poll_loop, hc, ha, isStr]

/-- Witness for C3 (corrected): the concrete error message under
correlation `c1` yields the error result and leaves the pending map
as it was. -/
theorem poll_error_keeps_pending_witness :
    poll_loop "c1" 30 [some errMsgC] [("c1", pendC)]
      = .ok (errorResultDict errMsgC "c1", [("c1", pendC)]) :=
  (poll_error_keeps_pending "c1" 30 [] [("c1", pendC)] errMsgC rfl rfl).1

/-- Monad-reduction lemma: binding a successful `Except` value. -/
@[simp] theorem exceptBind_ok {α β ε : Type} (a : α) (f : α → Except ε β) :
    (Except.ok a >>= f) = f a := rfl

/-- Monad-reduction lemma: binding a failed `Except` value. -/
@[simp] theorem exceptBind_error {α β ε : Type} (e : ε) (f : α → Except ε β) :
    ((Except.error e : Except ε α) >>= f) = .error e := rfl

/-- Monad-reduction lemma: `pure` into `Except` is `ok`. -/
@[simp] theorem exceptPure {α ε : Type} (a : α) :
    (pure a : Except ε α) = .ok a := rfl

/-- Monad-reduction lemma: mapping over a successful `Except` value. -/
@[simp] theorem exceptMap_ok {α β ε : Type} (a : α) (f : α → β) :
    (f <$> (Except.ok a : Except ε α)) = .ok (f a) := rfl

/-- Monad-reduction lemma: mapping over a failed `Except` value. -/
@[simp] theorem exceptMap_error {α β ε : Type} (e : ε) (f : α → β) :
    (f <$> (Except.error e : Except ε α)) = .error e := rfl

/-- A scene dict with an id and a description, as the author's scene
parser produces them. -/
def sceneOf (sid s : String) : Dict :=
  [("id", .vStr sid), ("description", .vStr s)]

/-- Claim C8 counterexample: a scene whose description is the literal
`"Scene not found"` (15 characters, below the threshold) fails the
clarity check and triggers the one clarification request, but the
author — not finding the scene id among its stored scenes — answers
with that same literal, so the replaced description EQUALS the
original: "the scene's description differs from the original at that
point" is false. -/
theorem clarification_no_change_counterexample :
    scene_needs_clarification (sceneOf "s1" "Scene not found") = .ok true
    ∧ clarify_scene (author_process_message (fun _ => .ok []) [] (fun p => p))
        (.vDict (sceneOf "s1" "Scene not found"))
      = .ok (.vDict (sceneOf "s1" "Scene not found"),
             [clarificationMsg (sceneOf "s1" "Scene not found")]) :=
  ⟨rfl, rfl⟩

/-- Claim C8 (corrected): a scene whose description is shorter than the
50-character threshold fails the clarity check and triggers exactly one
synchronous clarification request (no retry round), and the description
the writer returns replaces the scene's original description before the
illustration task is invoked — the illustration request carries the
updated scene.  The post-clarification description equals the writer's
returned text, so it differs from the original exactly when that text
differs (it does not when the writer echoes the original, e.g. the
`"Scene not found"` answer for an unknown scene id). -/
theorem clarification_roundtrip (gen : String → String) (storyScenes : List Dict)
    (exec : Dict → Except String Dict) (sid s : String)
    (hs : s.length < 50) :
    scene_needs_clarification (sceneOf sid s) = .ok true
    ∧ clarify_scene (author_process_message exec storyScenes gen)
        (.vDict (sceneOf sid s))
      = .ok (.vDict (sceneOf sid
               (enhance_scene_description storyScenes gen (.vStr sid))),
             [clarificationMsg (sceneOf sid s)])
    ∧ (∀ illustrator, phase_illustration (author_process_message exec storyScenes gen)
        illustrator
        [("illustration_scenes", .vList [.vDict (sceneOf sid s)]), ("story", .vDict [])]
        (.vStr "children_book")
      = illustrator
          { sender := "Orchestrator", recipient := "IllustratorAgent",
            content := [("action", .vStr "generate_illustrations"),
                        ("scenes", .vList [.vDict (sceneOf sid
                          (enhance_scene_description storyScenes gen (.vStr sid)))]),
                        ("characters", .vList []),
                        ("art_style", .vStr "children_book")],
            message_type := "request" } >>= phase2_finish)
    ∧ (enhance_scene_description storyScenes gen (.vStr sid) ≠ s →
        dictGetD (sceneOf sid (enhance_scene_description storyScenes gen (.vStr sid)))
          "description" (.vStr "") ≠ .vStr s) := by
  have h1 : scene_needs_clarification (sceneOf sid s) = .ok true := by
    simp [sceneOf, scene_needs_clarification, dictGetD, dictGet, hs]
  have hneed : scene_needs_clarification
      [("id", PyVal.vStr sid), ("description", PyVal.vStr s)] = .ok true := h1
  have h2 : clarify_scene (author_process_message exec storyScenes gen)
      (.vDict (sceneOf sid s))
      = .ok (.vDict (sceneOf sid
          (enhance_scene_description storyScenes gen (.vStr sid))),
          [clarificationMsg (sceneOf sid s)]) := by
    simp [clarify_scene, pyAsDict, hneed, author_process_message, clarificationMsg,
      sceneOf, dictGetD, dictGet, dictSet, pySubscript, isStr, pyTruthy]
  refine ⟨h1, h2, ?_, ?_⟩
  · intro illustrator
    simp [phase_illustration, pyAsList, pyAsDict, pySubscript, dictGetD, dictGet,
      List.mapM, List.mapM.loop, h2]
  · intro hne
    simp [sceneOf, dictGetD, dictGet, hne]

/-- Witness for C8 (corrected): a 5-character description triggers the
clarification and is replaced by the writer's enhanced text `"ENH"`. -/
theorem clarification_roundtrip_witness :
    clarify_scene (author_process_message (fun _ => .ok [])
        [sceneOf "s1" "short"] (fun _ => "ENH")) (.vDict (sceneOf "s1" "short"))
      = .ok (.vDict (sceneOf "s1" "ENH"), [clarificationMsg (sceneOf "s1" "short")]) :=
  (clarification_roundtrip (fun _ => "ENH") [sceneOf "s1" "short"]
    (fun _ => .ok []) "s1" "short" (by decide)).2.1

/-- The poll loop always terminates with one of the three statuses,
provided every delivered message's `result` payload — when present — is
a mapping (as the worker task contract produces). -/
theorem poll_loop_statuses (cid : String) (t : Nat)
    (incoming : List (Option BMessage)) :
    ∀ pending, (∀ mo ∈ incoming, ∀ m : BMessage, mo = some m →
        ∀ v, dictGet m.content "result" = some v → ∃ d, v = PyVal.vDict d) →
    ∃ r p', poll_loop cid t incoming pending = .ok (r, p')
      ∧ (dictGet r "status" = some (.vStr "complete")
         ∨ dictGet r "status" = some (.vStr "error")
         ∨ dictGet r "status" = some (.vStr "timeout")) := by
  induction incoming with
  | nil =>
      intro pending _
      exact ⟨timeoutResultDict t cid, pending, rfl, Or.inr (Or.inr rfl)⟩
  | cons mo rest ih =>
      intro pending h
      have hrest : ∀ mo ∈ rest, ∀ m : BMessage, mo = some m →
          ∀ v, dictGet m.content "result" = some v → ∃ d, v = PyVal.vDict d :=
        fun mo' hm' => h mo' (List.mem_cons_of_mem _ hm')
      cases mo with
      | none =>
          obtain ⟨r, p', heq, hst⟩ := ih pending hrest
          exact ⟨r, p', by simpa [poll_loop] using heq, hst⟩
      | some response =>
          by_cases hc : (response.correlation_id == cid) = true
          · by_cases hcomp : isStr (dictGetD response.content "action" .vNone) "complete" = true
            · have hcomp' : isStr ((dictGet response.content "action").getD PyVal.vNone)
                  "complete" = true := hcomp
              cases hres : dictGet response.content "result" with
              | none =>
                  refine ⟨dictSet (dictSet [] "status" (.vStr "complete"))
                    "correlation_id" (.vStr cid), pendingErase pending cid, ?_, Or.inl ?_⟩
                  · simp [poll_loop, hc, hcomp', dictGetD, hres]
                  · rw [dictGet_dictSet_of_ne _ _ _ _ (by decide), dictGet_dictSet_self]
              | some v =>
                  obtain ⟨d, rfl⟩ := h (some response) (List.mem_cons_self _ _)
                    response rfl v hres
                  refine ⟨dictSet (dictSet d "status" (.vStr "complete"))
                    "correlation_id" (.vStr cid), pendingErase pending cid, ?_, Or.inl ?_⟩
                  · simp [poll_loop, hc, hcomp', dictGetD, hres]
                  · rw [dictGet_dictSet_of_ne _ _ _ _ (by decide), dictGet_dictSet_self]
            · by_cases herr : isStr (dictGetD response.content "action" .vNone) "error" = true
              · exact ⟨errorResultDict response cid, pending,
                  by simp [poll_loop, hc, hcomp, herr], Or.inr (Or.inl rfl)⟩
              · obtain ⟨r, p', heq, hst⟩ := ih pending hrest
                exact ⟨r, p', by simp [poll_loop, hc, hcomp, herr, heq], hst⟩
          · obtain ⟨r, p', heq, hst⟩ := ih pending hrest
            exact ⟨r, p', by simp [poll_loop, hc, heq], hst⟩

/-- Claim C1 (corrected): the distributed `create_story` returns a
structured result whose status is one of `complete`, `error`, `timeout`
for every sequence of worker messages whose `result` payloads are
mappings (no exception escapes).  The in-process variant returns a
structured error result when phase 1 or phase 2 reports a non-complete
status — but a worker's exception propagates to the caller uncaught,
and a phase-3 failure makes the final assembly raise a `KeyError` on
the missing `files` entry instead of returning an error result. -/
theorem create_story_statuses
    (dw : BMessage → Except String Unit) (st : OrchState) (idea : Dict)
    (cid mid : String) (t : Nat) (incoming : List (Option BMessage))
    (author illustrator publisher : AMessage → Except String (Option AMessage))
    (idea2 sr ir : Dict) (e : String) :
    ((∀ mo ∈ incoming, ∀ m : BMessage, mo = some m →
        ∀ v, dictGet m.content "result" = some v → ∃ d, v = PyVal.vDict d) →
      ∃ r st', create_story_dist dw st idea cid mid t incoming = (.ok r, st')
        ∧ (dictGet r "status" = some (.vStr "complete")
           ∨ dictGet r "status" = some (.vStr "error")
           ∨ dictGet r "status" = some (.vStr "timeout")))
    ∧ (phase_story_creation author idea2 = .ok sr →
        isStr (dictGetD sr "status" .vNone) "complete" = false →
        create_story_inproc author illustrator publisher idea2
          = .ok [("status", .vStr "error"), ("message", .vStr "Story creation failed")])
    ∧ (phase_story_creation author idea2 = .ok sr →
        isStr (dictGetD sr "status" .vNone) "complete" = true →
        phase_illustration author illustrator sr
          (dictGetD idea2 "art_style" (.vStr "children_book")) = .ok ir →
        isStr (dictGetD ir "status" .vNone) "complete" = false →
        create_story_inproc author illustrator publisher idea2
          = .ok [("status", .vStr "error"), ("message", .vStr "Illustration failed")])
    ∧ (author (phase1Msg idea2) = .error e →
        create_story_inproc author illustrator publisher idea2 = .error e)
    ∧ create_story_inproc authorOkC illusOkC pubFailC [("plot", .vStr "p")]
        = .error "KeyError: files" := by
  refine ⟨?_, ?_, ?_, ?_, rfl⟩
  · intro h
    obtain ⟨r, p', heq, hst⟩ := poll_loop_statuses cid t incoming
      (pendingSet st.pending cid { status := "started", story_idea := idea }) h
    refine ⟨r, { broker := publish dw st.broker (BMessage.init mid "Orchestrator"
      "AuthorService" "request" (dictMerge [("action", .vStr "create_story")] idea)
      (some cid)), pending := p' }, ?_, hst⟩
    simp only [create_story_dist]
    rw [heq]
  · intro h1 h2
    simp [create_story_inproc, h1, h2]
  · intro h1 h2 h3 h4
    simp [create_story_inproc, h1, h2, h3, h4]
  · intro he
    simp [create_story_inproc, phase_story_creation, he]

/-- Witness for C1 (corrected): a worker returning no response in phase
1 yields the structured `Story creation failed` error result. -/
theorem create_story_statuses_witness :
    create_story_inproc authorNoneC illusOkC pubFailC []
      = .ok [("status", .vStr "error"), ("message", .vStr "Story creation failed")] :=
  (create_story_statuses dwOk ⟨⟨[], []⟩, []⟩ [] "c1" "m1" 30 []
    authorNoneC illusOkC pubFailC [] [("status", .vStr "error")] [] "x").2.1 rfl rfl

/-- Claim C1 counterexample: an exception raised by the writing worker
escapes the in-process `create_story` to the caller — the method
catches nothing — falsifying "never raises an exception to the caller"
for the in-process variant. -/
theorem create_story_raises_counterexample :
    create_story_inproc (fun _ => .error "boom") illusOkC pubFailC [] = .error "boom" :=
  rfl
